import Mathlib

/-!
Verification of the wxPropertyGrid editor interface (`interface/wx/propgrid/editors.h`):
the `wxPGEditor` contract and the `wxPGMultiButton` composite secondary control.

Geometry uses `Int` coordinates (wxWidgets `wxCoord` is a machine `int`; none of the
verified layout arithmetic can overflow in the modelled range, so we work over `Int`).

The header contains the inline bodies of `wxPGEditor::wxPGEditor`,
`wxPGMultiButton::GetButton`, `GetButtonId`, `GetCount`, `GetPrimarySize` and
`FinalizePosition`; those are embedded directly from the source.  The bodies of the
`wxPGMultiButton` constructor, of `Add`, and of the `wxPGEditor` virtual operations are
not part of the source slice, so they are modelled from the specification, as marked in
their doc comments.
-/

/-- Embeds `wxSize`: a width/height pair of integer coordinates. -/
structure WxSize where
  x : Int
  y : Int
deriving DecidableEq, Repr

/-- Embeds `wxPoint`: an x/y position of integer coordinates. -/
structure WxPoint where
  x : Int
  y : Int
deriving DecidableEq, Repr

/-- A button added to a `wxPGMultiButton` is either a text button (from
`Add(const wxString&, int)`) or a bitmap button (from `Add(const wxBitmap&, int)`). -/
inductive ButtonFace where
  | text (label : String)
  | bitmap (picture : Nat)
deriving DecidableEq, Repr

/-- One auxiliary button held by a `wxPGMultiButton`: its face, its window identifier
(`wxWindow::GetId`) and the width the created widget occupies in the cell. -/
structure PGButton where
  face : ButtonFace
  id : Int
  width : Int
deriving DecidableEq, Repr

/-- Embeds the state of `wxPGMultiButton`: the ordered button sequence `m_buttons`,
the full editor cell size `m_fullEditorSize`, the accumulated buttons width
`m_buttonsWidth`, and the window position of the button cluster (set by `Move`). -/
structure WxPGMultiButton where
  m_buttons : List PGButton
  m_fullEditorSize : WxSize
  m_buttonsWidth : Int
  m_position : WxPoint
deriving DecidableEq, Repr

namespace WxPGMultiButton

/-- Modelled from the spec: the constructor `wxPGMultiButton(pg, sz)` is declared but its
body is outside the source slice.  Per the spec, a fresh multi-button control records the
full editor cell size, holds no buttons yet, and has accumulated buttons width zero, so
that `getPrimarySize`/`finalizePosition` before any `add` yield the full cell to the
primary control. -/
def mkMultiButton (sz : WxSize) : WxPGMultiButton :=
  { m_buttons := []
    m_fullEditorSize := sz
    m_buttonsWidth := 0
    m_position := ⟨0, 0⟩ }

/-- Embeds `GetCount`: `return m_buttons.Count();`. -/
def GetCount (mb : WxPGMultiButton) : Nat :=
  mb.m_buttons.length

/-- Embeds `GetButton(i)`: `return m_buttons[i];` — an unchecked indexed access into the
button sequence.  The total embedding returns `none` exactly on the out-of-range error
branch. -/
def GetButton (mb : WxPGMultiButton) (i : Nat) : Option PGButton :=
  mb.m_buttons.get? i

/-- Embeds `GetButtonId(i)`: `return GetButton(i)->GetId();` — composes the unchecked
access with reading the button window identifier. -/
def GetButtonId (mb : WxPGMultiButton) (i : Nat) : Option Int :=
  (mb.GetButton i).map PGButton.id

/-- Modelled from the spec: identifier generation inside `Add`, whose body is outside
the source slice.  `Add` declares the default identifier argument as the sentinel `-2`;
per the spec an identifier below the valid range is replaced by an auto-assigned one,
chosen so that identifiers are unique within one control set: the first auto identifier
is the secondary-control base id and each later one follows the previous button's id. -/
def genId (mb : WxPGMultiButton) (id : Int) : Int :=
  if id < -1 then
    match mb.m_buttons.getLast? with
    | some b => b.id + 1
    | none => 3
  else id

/-- Modelled from the spec: the shared body of both `Add` overloads, outside the source
slice.  Appends a button with the generated identifier and the width `w` the created
widget occupies, and adds `w` to the running buttons-width total. -/
def add (mb : WxPGMultiButton) (face : ButtonFace) (w : Int) (id : Int) : WxPGMultiButton :=
  { mb with
      m_buttons := mb.m_buttons ++ [{ face := face, id := mb.genId id, width := w }]
      m_buttonsWidth := mb.m_buttonsWidth + w }

/-- Embeds `GetPrimarySize`:
`return wxSize(m_fullEditorSize.x - m_buttonsWidth, m_fullEditorSize.y);`. -/
def GetPrimarySize (mb : WxPGMultiButton) : WxSize :=
  ⟨mb.m_fullEditorSize.x - mb.m_buttonsWidth, mb.m_fullEditorSize.y⟩

/-- Embeds `FinalizePosition`:
`Move(pos.x + m_fullEditorSize.x - m_buttonsWidth, pos.y);` — `Move` is the external
toolkit primitive that sets the window position. -/
def FinalizePosition (mb : WxPGMultiButton) (pos : WxPoint) : WxPGMultiButton :=
  { mb with m_position := ⟨pos.x + mb.m_fullEditorSize.x - mb.m_buttonsWidth, pos.y⟩ }

/-- The x-coordinate of the right edge of the button cluster: its window position plus
the width the contiguously laid out buttons occupy (spec invariant: buttons are laid out
contiguously within the cell, so the cluster is `m_buttonsWidth` wide). -/
def clusterRightEdge (mb : WxPGMultiButton) : Int :=
  mb.m_position.x + mb.m_buttonsWidth

/-- One recorded `Add` call: which overload, the widget width, and the identifier
argument (the declared default is the sentinel `-2`). -/
structure AddCall where
  face : ButtonFace
  width : Int
  id : Int
deriving DecidableEq, Repr

/-- Replays a sequence of `Add` calls on a multi-button control. -/
def addAll (mb : WxPGMultiButton) (calls : List AddCall) : WxPGMultiButton :=
  calls.foldl (fun m c => m.add c.face c.width c.id) mb

end WxPGMultiButton

/-- Modelled from the spec: the external Property surface consumed by the editor
contract — the current value, the "unspecified" flag, and the value-to-string /
string-to-value conversion routines the property owns (used by `UpdateControl` and
`GetValueFromControl`).  The value domain is `Int` (e.g. a numeric property). -/
structure WxPGProperty where
  value : Int
  unspecified : Bool
  valueToString : Int → String
  stringToValue : String → Option Int

/-- Modelled from the spec: the state of the primary editor control visible to the
contract — its displayed text and, for choice-like controls, an ordered item list. -/
structure WxControl where
  text : String
  items : List String
deriving DecidableEq, Repr

/-- Modelled from the spec: `SetValueToUnspecified` clears the control to a blank,
neutral display state representing "no determinate value". -/
def SetValueToUnspecified (c : WxControl) : WxControl :=
  { c with text := "" }

/-- Modelled from the spec: `UpdateControl` pushes the property's current value into the
control, delegating to `SetValueToUnspecified` when the value is unspecified, and
otherwise displaying the property's own string conversion of its value. -/
def UpdateControl (p : WxPGProperty) (c : WxControl) : WxControl :=
  if p.unspecified then SetValueToUnspecified c
  else { c with text := p.valueToString p.value }

/-- Modelled from the spec: `GetValueFromControl` reads the control's current state,
converts it through the property's own string-to-value routine, yields the proposed
value (`none` when the text denotes no determinate value), and reports whether it
differs from the property's previous value.  Conversion failure is delegated to the
property's routine; the editor only forwards the resulting changed flag. -/
def GetValueFromControl (p : WxPGProperty) (c : WxControl) : Option Int × Bool :=
  match p.stringToValue c.text with
  | some v => (some v, decide (p.unspecified = true) || decide (v ≠ p.value))
  | none => (none, decide (p.unspecified = false))

/-- A UI event forwarded by the host to `OnEvent`: a text edit of the primary control,
a click on a (secondary) button identified by its window id, or a focus gain. -/
inductive WxEvent where
  | textUpdated (t : String)
  | buttonClicked (id : Int)
  | focusGained
deriving DecidableEq, Repr

/-- The per-row state an edit session touches: the external Property and the live
primary control of the ControlSet. -/
structure EditSession where
  prop : WxPGProperty
  ctrl : WxControl

/-- Modelled from the spec: `OnEvent` interprets a UI event, returning true exactly when
the control's value now differs from the property's last-synchronized value.  It may
update the control state but proposes no value and does not touch the Property; a bare
button click is not itself a value-changing action. -/
def OnEvent (s : EditSession) (ev : WxEvent) : EditSession × Bool :=
  match ev with
  | .textUpdated t =>
      ({ s with ctrl := { s.ctrl with text := t } },
       decide (t ≠ s.prop.valueToString s.prop.value))
  | .buttonClicked _ => (s, false)
  | .focusGained => (s, false)

/-- Modelled from the spec: `OnFocus` is an optional hook on focus gain; the default
behavior leaves the modelled control state unchanged (text selection is not part of the
contract state). -/
def OnFocus (s : EditSession) : EditSession :=
  s

/-- Modelled from the spec: the default `InsertItem` of the base editor class — for
editors without a list representation it performs no mutation of the control and
returns the sentinel `-1`. -/
def InsertItem (c : WxControl) (_label : String) (_index : Int) : WxControl × Int :=
  (c, -1)

/-- Modelled from the spec: the default `DeleteItem` of the base editor class — for
editors without a list representation it performs no mutation of the control. -/
def DeleteItem (c : WxControl) (_index : Int) : WxControl :=
  c

/-- An editor operation other than `GetValueFromControl`, as invocable by the host
during an edit session. -/
inductive EditorOp where
  | updateControl
  | onEvent (ev : WxEvent)
  | setValueToUnspecified
  | onFocus
  | insertItem (label : String) (index : Int)
  | deleteItem (index : Int)

/-- Runs one non-committing editor operation on the session state. -/
def runOp (s : EditSession) (op : EditorOp) : EditSession :=
  match op with
  | .updateControl => { s with ctrl := UpdateControl s.prop s.ctrl }
  | .onEvent ev => (OnEvent s ev).1
  | .setValueToUnspecified => { s with ctrl := SetValueToUnspecified s.ctrl }
  | .onFocus => OnFocus s
  | .insertItem label index => { s with ctrl := (InsertItem s.ctrl label index).1 }
  | .deleteItem index => { s with ctrl := DeleteItem s.ctrl index }

/-- Runs a sequence of non-committing editor operations, as in an edit that is later
abandoned without calling `GetValueFromControl`. -/
def runOps (s : EditSession) (ops : List EditorOp) : EditSession :=
  ops.foldl runOp s

/-- Embeds the members of `wxPGEditor` that are data, not behavior: the public opaque
client-data slot `m_clientData` (a `void*`; `none` embeds `NULL`). -/
structure WxPGEditor where
  m_clientData : Option Nat
deriving DecidableEq, Repr

/-- Embeds the `wxPGEditor` constructor: `wxPGEditor() : wxObject() { m_clientData = NULL; }`. -/
def mkWxPGEditor : WxPGEditor :=
  { m_clientData := none }

/-- A concrete numeric property used to evaluate the contract on an input: value `5`,
specified, with a string conversion that round-trips. -/
def sampleProperty : WxPGProperty :=
  { value := 5
    unspecified := false
    valueToString := fun _ => "five"
    stringToValue := fun s => if s = "five" then some 5 else none }

/-- A concrete blank primary control. -/
def sampleControl : WxControl :=
  { text := "", items := [] }

namespace WxPGMultiButton

/-- Replaying `Add` calls never touches the recorded full editor cell size. -/
lemma addAll_fullEditorSize (calls : List AddCall) :
    ∀ mb : WxPGMultiButton, (mb.addAll calls).m_fullEditorSize = mb.m_fullEditorSize := by
  induction calls with
  | nil => intro mb; rfl
  | cons c cs ih =>
      intro mb
      simpa [addAll, List.foldl_cons] using ih (mb.add c.face c.width c.id)

/-- Replaying `Add` calls adds exactly the widths of the created buttons to the running
buttons-width total. -/
lemma addAll_buttonsWidth (calls : List AddCall) :
    ∀ mb : WxPGMultiButton,
      (mb.addAll calls).m_buttonsWidth = mb.m_buttonsWidth + (calls.map AddCall.width).sum := by
  induction calls with
  | nil => intro mb; simp [addAll]
  | cons c cs ih =>
      intro mb
      have h1 : mb.addAll (c :: cs) = (mb.add c.face c.width c.id).addAll cs := rfl
      rw [h1, ih]
      simp [add]
      ring

/-- Each `Add` call appends exactly one button to the ordered sequence. -/
lemma addAll_count (calls : List AddCall) :
    ∀ mb : WxPGMultiButton, (mb.addAll calls).GetCount = mb.GetCount + calls.length := by
  induction calls with
  | nil => intro mb; simp [addAll, GetCount]
  | cons c cs ih =>
      intro mb
      have h1 : mb.addAll (c :: cs) = (mb.add c.face c.width c.id).addAll cs := rfl
      rw [h1, ih]
      simp [add, GetCount]
      omega

end WxPGMultiButton

namespace WxPGMultiButton

/-- The k-th auto-assigned button identifier: the secondary-control base id `3` plus the
button's position in the sequence. -/
def autoId (k : Nat) : Int :=
  3 + k

/-- The auto-assignment invariant: the button identifiers are exactly the consecutive
auto-assigned identifiers in sequence order. -/
def idsConsecutive (mb : WxPGMultiButton) : Prop :=
  mb.m_buttons.map PGButton.id = (List.range mb.m_buttons.length).map autoId

/-- An `Add` with the default sentinel identifier preserves the auto-assignment
invariant: the generated identifier follows the previous button's identifier. -/
lemma idsConsecutive_add (mb : WxPGMultiButton) (face : ButtonFace) (w : Int)
    (h : mb.idsConsecutive) : (mb.add face w (-2)).idsConsecutive := by
  have hlt : ((-2 : Int) < -1) := by norm_num
  unfold idsConsecutive at h ⊢
  unfold add genId
  rw [if_pos hlt]
  cases hb : mb.m_buttons.getLast? with
  | none =>
      have hnil : mb.m_buttons = [] := List.getLast?_eq_none_iff.mp hb
      simp [hnil]
      decide
  | some b =>
      obtain ⟨l0, hl0⟩ := List.getLast?_eq_some_iff.mp hb
      have hlen : mb.m_buttons.length = l0.length + 1 := by
        rw [hl0]; simp
      have hid : b.id = autoId l0.length := by
        have h2 : (mb.m_buttons.map PGButton.id).getLast? = some b.id := by
          rw [hl0]; simp
        rw [h, hlen, List.range_succ, List.map_append] at h2
        simp at h2
        exact h2.symm
      rw [List.map_append, h]
      simp only [List.length_append, List.length_cons, List.length_nil, List.map_cons,
        List.map_nil]
      rw [List.range_succ, List.map_append]
      simp only [List.map_cons, List.map_nil]
      congr 1
      simp only [autoId] at hid ⊢
      simp only [List.cons.injEq, and_true]
      omega

/-- Replaying default-identifier `Add` calls preserves the auto-assignment invariant. -/
lemma idsConsecutive_addAll (calls : List AddCall) :
    ∀ mb : WxPGMultiButton, (∀ c ∈ calls, c.id = -2) → mb.idsConsecutive →
      (mb.addAll calls).idsConsecutive := by
  induction calls with
  | nil => intro mb _ h; exact h
  | cons c cs ih =>
      intro mb hall h
      have hc : c.id = -2 := hall c (List.mem_cons_self c cs)
      have h1 : mb.addAll (c :: cs) = (mb.add c.face c.width c.id).addAll cs := rfl
      rw [h1, hc]
      exact ih _ (fun d hd => hall d (List.mem_cons_of_mem c hd))
        (mb.idsConsecutive_add c.face c.width h)

/-- A freshly constructed multi-button control satisfies the auto-assignment
invariant vacuously. -/
lemma idsConsecutive_mk (sz : WxSize) : (mkMultiButton sz).idsConsecutive := by
  simp [idsConsecutive, mkMultiButton]

/-- When every supplied identifier is in the valid range (not below `-1`), `Add` keeps
it as given, so the button identifiers are exactly the supplied ones. -/
lemma addAll_explicit_ids (calls : List AddCall) :
    ∀ mb : WxPGMultiButton, (∀ c ∈ calls, -1 ≤ c.id) →
      (mb.addAll calls).m_buttons.map PGButton.id
        = mb.m_buttons.map PGButton.id ++ calls.map AddCall.id := by
  induction calls with
  | nil => intro mb _; simp [addAll]
  | cons c cs ih =>
      intro mb hall
      have hc : ¬ (c.id < -1) := not_lt.mpr (hall c (List.mem_cons_self c cs))
      have h1 : mb.addAll (c :: cs) = (mb.add c.face c.width c.id).addAll cs := rfl
      rw [h1, ih _ (fun d hd => hall d (List.mem_cons_of_mem c hd))]
      simp [add, genId, if_neg hc]

/-- The consecutive identifiers produced by auto-assignment contain no duplicate. -/
lemma idsConsecutive_nodup (mb : WxPGMultiButton) (h : mb.idsConsecutive) :
    (mb.m_buttons.map PGButton.id).Nodup := by
  rw [h]
  refine List.Nodup.map ?_ (List.nodup_range _)
  intro a b hab
  simp [autoId] at hab
  omega

end WxPGMultiButton

namespace WxPGMultiButton

/-- Claim C1: for every multi-button control constructed with cell size `(w, h)`, after
any sequence of `Add` calls accumulating total button width `bw`, `GetPrimarySize`
returns exactly `(w - bw, h)`: the primary control's available width is the cell width
minus the total button width, and its height is the full cell height. -/
theorem getPrimarySize_splits_cell (sz : WxSize) (calls : List AddCall) :
    ((mkMultiButton sz).addAll calls).GetPrimarySize
      = ⟨sz.x - (calls.map AddCall.width).sum, sz.y⟩ := by
  unfold GetPrimarySize
  rw [addAll_buttonsWidth calls (mkMultiButton sz),
    addAll_fullEditorSize calls (mkMultiButton sz)]
  simp [mkMultiButton]

/-- Claim C2: within one control set the button identifiers returned by `GetButtonId i`
for `i < GetCount` are pairwise distinct, both when every identifier is explicitly
supplied as a distinct in-range value and when every identifier is left to the default
sentinel of `Add` and auto-assigned. -/
theorem getButtonId_pairwise_distinct (sz : WxSize) (calls : List AddCall) (i j : Nat)
    (hcalls : (∀ c ∈ calls, c.id = -2) ∨
      ((∀ c ∈ calls, -1 ≤ c.id) ∧ (calls.map AddCall.id).Nodup))
    (hi : i < ((mkMultiButton sz).addAll calls).GetCount)
    (hij : i ≠ j) :
    ((mkMultiButton sz).addAll calls).GetButtonId i
      ≠ ((mkMultiButton sz).addAll calls).GetButtonId j := by
  have hnodup : ((((mkMultiButton sz).addAll calls)).m_buttons.map PGButton.id).Nodup := by
    cases hcalls with
    | inl hdef =>
        exact idsConsecutive_nodup _
          (idsConsecutive_addAll calls (mkMultiButton sz) hdef (idsConsecutive_mk sz))
    | inr hexp =>
        have hids := addAll_explicit_ids calls (mkMultiButton sz) hexp.1
        rw [hids]
        simpa [mkMultiButton] using hexp.2
  intro heq
  unfold GetButtonId GetButton at heq
  rw [← List.get?_map, ← List.get?_map] at heq
  exact hij (List.get?_inj (by simpa [GetCount] using hi) hnodup heq)

/-- Witness for C2: three buttons added with the default sentinel identifier have
distinct auto-assigned identifiers at indices 0 and 1. -/
theorem getButtonId_pairwise_distinct_witness :
    ((mkMultiButton ⟨100, 20⟩).addAll
        [⟨ButtonFace.text "...", 20, -2⟩, ⟨ButtonFace.text "A", 20, -2⟩,
          ⟨ButtonFace.bitmap 0, 20, -2⟩]).GetButtonId 0
      ≠ ((mkMultiButton ⟨100, 20⟩).addAll
        [⟨ButtonFace.text "...", 20, -2⟩, ⟨ButtonFace.text "A", 20, -2⟩,
          ⟨ButtonFace.bitmap 0, 20, -2⟩]).GetButtonId 1 :=
  getButtonId_pairwise_distinct ⟨100, 20⟩
    [⟨ButtonFace.text "...", 20, -2⟩, ⟨ButtonFace.text "A", 20, -2⟩,
      ⟨ButtonFace.bitmap 0, 20, -2⟩] 0 1
    (Or.inl (by decide)) (by decide) (by decide)

/-- Claim C3: for every cell width and any number of added buttons, `FinalizePosition`
places the button cluster so that its right edge lies at `origin.x + cellWidth`. -/
theorem finalizePosition_right_edge (sz : WxSize) (calls : List AddCall) (pos : WxPoint) :
    ((((mkMultiButton sz).addAll calls)).FinalizePosition pos).clusterRightEdge
      = pos.x + sz.x := by
  unfold clusterRightEdge FinalizePosition
  simp only
  rw [addAll_fullEditorSize calls (mkMultiButton sz)]
  simp [mkMultiButton]

/-- Claim C6: `GetButton i` and `GetButtonId i` carry the precondition `i < GetCount`;
under it the access into the button sequence is in bounds, so the error branch of the
total embedding (the `none` result) is unreachable. -/
theorem getButton_in_range_isSome (mb : WxPGMultiButton) (i : Nat)
    (h : i < mb.GetCount) :
    (mb.GetButton i).isSome = true ∧ (mb.GetButtonId i).isSome = true := by
  have hget : mb.m_buttons.get? i = some (mb.m_buttons.get ⟨i, h⟩) :=
    List.get?_eq_get h
  constructor
  · unfold GetButton
    rw [hget]
    rfl
  · unfold GetButtonId GetButton
    rw [hget]
    rfl

/-- Witness for C6: on a control holding one button, index 0 is in range and both
accessors return a value. -/
theorem getButton_in_range_isSome_witness :
    0 < ((mkMultiButton ⟨100, 20⟩).add (ButtonFace.text "b") 20 (-2)).GetCount
      ∧ ((((mkMultiButton ⟨100, 20⟩).add (ButtonFace.text "b") 20 (-2))).GetButton 0).isSome = true
      ∧ ((((mkMultiButton ⟨100, 20⟩).add (ButtonFace.text "b") 20 (-2))).GetButtonId 0).isSome = true :=
  ⟨by decide,
    getButton_in_range_isSome ((mkMultiButton ⟨100, 20⟩).add (ButtonFace.text "b") 20 (-2)) 0
      (by decide)⟩

/-- Claim C7: before any `Add` call, `GetPrimarySize` returns the full cell size, the
accumulated button width is zero, and `FinalizePosition` places the empty cluster with
its right edge at `origin.x + cellWidth`, yielding the full cell to the primary
control. -/
theorem fresh_multiButton_full_cell (sz : WxSize) (pos : WxPoint) :
    (mkMultiButton sz).GetPrimarySize = sz
      ∧ (mkMultiButton sz).m_buttonsWidth = 0
      ∧ ((mkMultiButton sz).FinalizePosition pos).clusterRightEdge = pos.x + sz.x := by
  refine ⟨?_, rfl, ?_⟩
  · cases sz
    simp [mkMultiButton, GetPrimarySize]
  · simp [mkMultiButton, FinalizePosition, clusterRightEdge]

/-- Claim C10: `FinalizePosition` is idempotent — repeating it with the same origin and
no intervening `Add` leaves the cluster position exactly as after the first call. -/
theorem finalizePosition_idempotent (mb : WxPGMultiButton) (pos : WxPoint) :
    (mb.FinalizePosition pos).FinalizePosition pos = mb.FinalizePosition pos :=
  rfl

end WxPGMultiButton

/-- Claim C4: for every property whose value lies in the editor's representable domain
(its own conversion round-trips, and a blank control denotes no determinate value when
the property is unspecified), `UpdateControl` followed immediately by
`GetValueFromControl` reports `changed = false`. -/
theorem updateControl_getValueFromControl_roundtrip (p : WxPGProperty) (c : WxControl)
    (hdom : if p.unspecified then p.stringToValue "" = none
      else p.stringToValue (p.valueToString p.value) = some p.value) :
    (GetValueFromControl p (UpdateControl p c)).2 = false := by
  cases hu : p.unspecified with
  | true =>
      simp only [hu, if_true] at hdom
      simp [UpdateControl, GetValueFromControl, SetValueToUnspecified, hu, hdom]
  | false =>
      simp only [hu, Bool.false_eq_true, if_false] at hdom
      simp [UpdateControl, GetValueFromControl, hu, hdom]

/-- Witness for C4: the concrete specified property with value 5 and a round-tripping
conversion yields `changed = false` after the push/pull pair. -/
theorem updateControl_getValueFromControl_roundtrip_witness :
    (if sampleProperty.unspecified then sampleProperty.stringToValue "" = none
      else sampleProperty.stringToValue (sampleProperty.valueToString sampleProperty.value)
        = some sampleProperty.value)
      ∧ (GetValueFromControl sampleProperty (UpdateControl sampleProperty sampleControl)).2
        = false :=
  ⟨by decide,
    updateControl_getValueFromControl_roundtrip sampleProperty sampleControl (by decide)⟩

/-- Claim C5: no editor operation other than `GetValueFromControl` changes the Property:
`OnEvent` never mutates it, and a whole edit made of non-committing operations — as when
the control set is destroyed without calling `GetValueFromControl` — leaves the Property
exactly as it was before the edit began. -/
theorem non_committing_ops_preserve_property (s : EditSession) (ops : List EditorOp) :
    (runOps s ops).prop = s.prop ∧ ∀ ev : WxEvent, ((OnEvent s ev).1).prop = s.prop := by
  constructor
  · induction ops generalizing s with
    | nil => rfl
    | cons op rest ih =>
        have h1 : runOps s (op :: rest) = runOps (runOp s op) rest := rfl
        rw [h1, ih (runOp s op)]
        cases op with
        | updateControl => rfl
        | onEvent ev => cases ev <;> rfl
        | setValueToUnspecified => rfl
        | onFocus => rfl
        | insertItem label index => rfl
        | deleteItem index => rfl
  · intro ev
    cases ev <;> rfl

/-- Claim C8: the default `InsertItem` performs no mutation of the control and returns
the sentinel `-1`, and the default `DeleteItem` performs no mutation; neither signals an
error. -/
theorem default_list_hooks_noop (c : WxControl) (label : String) (index : Int) :
    InsertItem c label index = (c, -1) ∧ DeleteItem c index = c :=
  ⟨rfl, rfl⟩

/-- Claim C9: a freshly constructed `wxPGEditor` has a `NULL` client-data slot: the
constructor assigns `m_clientData = NULL`. -/
theorem mkWxPGEditor_clientData_null : mkWxPGEditor.m_clientData = none :=
  rfl
